import Mathlib

/-!
ACADeploymentFailureDemo: the HTTP service (`server.js`) and the local test
harness (`test-local.js`).

A shallow embedding of the two scripts.  JavaScript values are a small
inductive type, `process.env` is restricted to the two variables the program
reads, the module body of `server.js` is a function from the environment to
its outcome (fatal exit, a `listen` call that throws, or a `listen` call that
returns), a request passes through the middleware in the order of their
registration, and the harness is a step function over the events of its three
HTTP responses.
-/

namespace ACADemo

/-! ## JavaScript values -/

/-- JavaScript values that occur in the two scripts. -/
inductive JSVal where
  | undefined
  | num (n : Int)
  | str (s : String)
  | arr (items : List JSVal)
  | obj (fields : List (String × JSVal))

/-- Truthiness of a value, as tested by `!x` and `x || y`: `undefined`, the
number zero and the empty string are falsy, everything else here is truthy. -/
def JSVal.truthy : JSVal → Bool
  | .undefined => false
  | .num n => n != 0
  | .str s => s != ""
  | .arr _ => true
  | .obj _ => true

/-- The operator `a || b`: `a` when it is truthy, else `b`. -/
def JSVal.or (a b : JSVal) : JSVal :=
  if a.truthy then a else b

/-- Whether a value is `undefined`. -/
def JSVal.isUndefined : JSVal → Bool
  | .undefined => true
  | _ => false

/-- Whether a value is a number (all numbers of this program are integers). -/
def JSVal.isInteger : JSVal → Bool
  | .num _ => true
  | _ => false

/-- The members of the JSON text of an object: JSON serialisation keeps the
properties in order and omits those whose value is `undefined`. -/
def JSVal.jsonFields : JSVal → List (String × JSVal)
  | .obj fields => fields.filter (fun kv => !kv.2.isUndefined)
  | _ => []

/-- The names of the members of the JSON text of an object. -/
def JSVal.jsonKeys (v : JSVal) : List String :=
  v.jsonFields.map Prod.fst

/-- The value of member `key` in the JSON text of an object. -/
def JSVal.jsonField (v : JSVal) (key : String) : Option JSVal :=
  v.jsonFields.lookup key

/-! ## Environment -/

/-- The part of `process.env` the program reads: each variable is either unset
or holds a string. -/
structure Env where
  PORT : Option String
  REQUIRED_CONFIG : Option String

/-- Reading `process.env.X`: `undefined` when unset, else the string. -/
def envRead : Option String → JSVal
  | none => .undefined
  | some s => .str s

/-! ## `server.js` -/

/-- The two module-level constants of `server.js`. -/
structure App where
  PORT : JSVal
  REQUIRED_CONFIG : JSVal

/-- The constant `const PORT = process.env.PORT || 3000`. -/
def PORT (env : Env) : JSVal :=
  (envRead env.PORT).or (.num 3000)

/-- The constant `const REQUIRED_CONFIG = process.env.REQUIRED_CONFIG`. -/
def REQUIRED_CONFIG (env : Env) : JSVal :=
  envRead env.REQUIRED_CONFIG

/-! ## The port argument of `listen`

`app.listen(PORT, '0.0.0.0', ..)` hands its arguments to `listen` of the HTTP
server.  A string port is read with `Number`: when the result is `NaN` or
negative the string is taken as the name of a pipe (local socket); otherwise
it must be an integer between 0 and 65535 and must not be blank, or `listen`
throws. -/

/-- White space and line terminators, as stripped by `Number` and `trim`. -/
def isStrWhiteSpace (c : Char) : Bool :=
  let n := c.toNat
  n == 0x09 || n == 0x0A || n == 0x0B || n == 0x0C || n == 0x0D || n == 0x20 ||
  n == 0xA0 || n == 0x1680 || (Nat.ble 0x2000 n && Nat.ble n 0x200A) ||
  n == 0x2028 || n == 0x2029 || n == 0x202F || n == 0x205F || n == 0x3000 ||
  n == 0xFEFF

/-- The characters of a string without leading and trailing white space. -/
def trimWhiteSpace (cs : List Char) : List Char :=
  ((cs.dropWhile isStrWhiteSpace).reverse.dropWhile isStrWhiteSpace).reverse

/-- Value of a string of decimal digits. -/
def decimalValue (ds : List Char) : Nat :=
  ds.foldl (fun acc c => 10 * acc + (c.toNat - 48)) 0

/-- Value of one digit in the given radix, `none` when it is not a digit of
that radix. -/
def digitValue (radix : Nat) (c : Char) : Option Nat :=
  let v : Option Nat :=
    if c.isDigit then some (c.toNat - 48)
    else if Nat.ble 97 c.toNat && Nat.ble c.toNat 102 then some (c.toNat - 87)
    else if Nat.ble 65 c.toNat && Nat.ble c.toNat 70 then some (c.toNat - 55)
    else none
  match v with
  | some d => if d < radix then some d else none
  | none => none

/-- Value of a non-empty string of digits in the given radix. -/
def radixValue (radix : Nat) : List Char → Option Nat
  | [] => none
  | ds => ds.foldl (fun acc c =>
      match acc, digitValue radix c with
      | some a, some d => some (radix * a + d)
      | _, _ => none) (some 0)

/-- The value of `Number(s)` before rounding: not a number, an infinity, or
`± mantissa × 10 ^ exponent`. -/
inductive StrNumber where
  | nan
  | infinity (negative : Bool)
  | decimal (negative : Bool) (mantissa : Nat) (exponent : Int)

/-- The exponent part of a decimal literal: nothing, or `e`/`E`, an optional
sign and at least one digit. -/
def exponentPart : List Char → Option Int
  | [] => some 0
  | c :: rest =>
    if c = 'e' ∨ c = 'E' then
      match rest with
      | '+' :: ds => if ds ≠ [] ∧ ds.all Char.isDigit = true then some (decimalValue ds) else none
      | '-' :: ds => if ds ≠ [] ∧ ds.all Char.isDigit = true then some (-(decimalValue ds : Int)) else none
      | ds => if ds ≠ [] ∧ ds.all Char.isDigit = true then some (decimalValue ds) else none
    else
      none

/-- An unsigned decimal literal `digits`, `digits.`, `digits.digits` or
`.digits`, each with an optional exponent part: its mantissa and exponent. -/
def unsignedDecimal (cs : List Char) : Option (Nat × Int) :=
  let ip := cs.takeWhile Char.isDigit
  let r1 := cs.dropWhile Char.isDigit
  match r1 with
  | '.' :: r2 =>
    let fp := r2.takeWhile Char.isDigit
    let r3 := r2.dropWhile Char.isDigit
    if ip = [] ∧ fp = [] then none
    else
      match exponentPart r3 with
      | some e => some (decimalValue (ip ++ fp), e - (fp.length : Int))
      | none => none
  | _ =>
    if ip = [] then none
    else
      match exponentPart r1 with
      | some e => some (decimalValue ip, e)
      | none => none

/-- A decimal literal after its sign: `Infinity` or an unsigned decimal. -/
def strDecimal (negative : Bool) (cs : List Char) : StrNumber :=
  if cs = ['I', 'n', 'f', 'i', 'n', 'i', 't', 'y'] then .infinity negative
  else
    match unsignedDecimal cs with
    | some (m, e) => .decimal negative m e
    | none => .nan

/-- A binary, octal or hexadecimal integer literal `0b..`, `0o..`, `0x..`. -/
def nonDecimal : List Char → Option Nat
  | '0' :: x :: ds =>
    if x = 'x' ∨ x = 'X' then radixValue 16 ds
    else if x = 'o' ∨ x = 'O' then radixValue 8 ds
    else if x = 'b' ∨ x = 'B' then radixValue 2 ds
    else none
  | _ => none

/-- The function `Number` on a string: a blank string is 0, a non-decimal
integer literal carries no sign, anything outside the grammar is `NaN`. -/
def stringToNumber (s : String) : StrNumber :=
  match trimWhiteSpace s.data with
  | [] => .decimal false 0 0
  | '+' :: rest => strDecimal false rest
  | '-' :: rest => strDecimal true rest
  | cs =>
    match nonDecimal cs with
    | some n => .decimal false n 0
    | none => strDecimal false cs

/-- The value `mantissa × 10 ^ exponent` as a fraction of naturals. -/
def asFraction (m : Nat) (e : Int) : Nat × Nat :=
  if 0 ≤ e then (m * 10 ^ e.toNat, 1) else (m, 10 ^ (-e).toNat)

/-- The exponent `k` with `2 ^ k ≤ n < 2 ^ (k + 1)`, for `1 ≤ n < 65536`. -/
def binade (n : Nat) : Nat :=
  (List.range 16).foldl (fun k i => if 2 ^ i ≤ n then i else k) 0

/-- The integer between 0 and 65535 to which the fraction `a / b` rounds as a
double-precision number, if it rounds to one.  The nearest integer `n` is the
only candidate; `a / b` rounds to it when it lies within half the distance to
the neighbouring doubles of `n` (ties go to `n`, whose significand is even),
and to 0 when it is at most `2 ^ (-1075)`. -/
def roundedInteger (a b : Nat) : Option Nat :=
  let n := (2 * a + b) / (2 * b)
  if a = 0 then some 0
  else if n = 0 then
    if a * 2 ^ 1075 ≤ b then some 0 else none
  else if 65535 < n then none
  else
    let k := binade n
    let t := 2 ^ (54 - k)
    let low := if n = 2 ^ k then 1 else 2
    if (n * t - low) * b ≤ a * t ∧ a * t ≤ (n * t + 2) * b then some n else none

/-- What `listen` does with its port argument. -/
inductive ListenTarget where
  /-- The TCP port `port`, between 1 and 65535, on the given host. -/
  | tcp (port : Nat)
  /-- Port 0: a TCP port chosen by the operating system. -/
  | anyPort
  /-- The pipe (local socket) of this name; the host argument is not used. -/
  | pipe (name : String)
  /-- Nothing: `listen` throws a bad-port error. -/
  | bad
deriving DecidableEq

/-- The target of `listen` for a port argument.  `PORT` is a number or a
non-empty string; `undefined` stands for an omitted port, and the remaining
kinds of value never reach `listen` in this program. -/
def listenTarget : JSVal → ListenTarget
  | .undefined => .anyPort
  | .num n =>
    if 0 ≤ n ∧ n ≤ 65535 then (if n = 0 then .anyPort else .tcp n.toNat) else .bad
  | .str s =>
    match stringToNumber s with
    | .nan => .pipe s
    | .infinity true => .pipe s
    | .infinity false => .bad
    | .decimal negative m e =>
      match roundedInteger (asFraction m e).1 (asFraction m e).2 with
      | some 0 => if trimWhiteSpace s.data = [] then .bad else .anyPort
      | some n => if negative then .pipe s else .tcp n
      | none => if negative then .pipe s else .bad
  | _ => .bad

/-- Outcome of running the module body of `server.js`. -/
inductive Startup where
  /-- The call `process.exit(code)` was made; `stderr` is what `console.error` wrote. -/
  | exited (code : Nat) (stderr : List String)
  /-- The call `app.listen(port, host, ..)` was reached with the constants `app`
  and threw: the exception is uncaught and the process ends with exit code 1. -/
  | listenThrew (app : App) (port : JSVal) (host : String)
  /-- The call `app.listen(port, host, ..)` was reached with the constants `app`
  and returned: the module body has run to its end without ending the process,
  and the listener has been requested (what the operating system later does
  with that request is not part of the program). -/
  | listening (app : App) (port : JSVal) (host : String)

/-- The two lines written by `console.error` on the fatal path. -/
def fatalLog : List String :=
  ["FATAL ERROR: REQUIRED_CONFIG environment variable is not set!",
   "This will cause the application to fail when deployed to Azure Container Apps."]

/-- The module body of `server.js`: compute the constants, leave with exit
code 1 when `!REQUIRED_CONFIG`, else register the routes and call
`app.listen(PORT, '0.0.0.0', ..)`, which throws when it rejects `PORT`. -/
def startServer (env : Env) : Startup :=
  let app : App := { PORT := PORT env, REQUIRED_CONFIG := REQUIRED_CONFIG env }
  if !app.REQUIRED_CONFIG.truthy then
    .exited 1 fatalLog
  else
    match listenTarget app.PORT with
    | .bad => .listenThrew app app.PORT "0.0.0.0"
    | _ => .listening app app.PORT "0.0.0.0"

/-- The exit code with which running the module body ends the process; `none`
when the body runs to its end. -/
def Startup.exitCode : Startup → Option Nat
  | .exited code _ => some code
  | .listenThrew _ _ _ => some 1
  | .listening _ _ _ => none

/-- The arguments with which `app.listen` was called, if it was called. -/
def Startup.listenCall : Startup → Option (JSVal × String)
  | .exited _ _ => none
  | .listenThrew _ port host => some (port, host)
  | .listening _ port host => some (port, host)

/-- The constants with which the routes were registered, if the guard was
passed. -/
def Startup.constants : Startup → Option App
  | .exited _ _ => none
  | .listenThrew app _ _ => some app
  | .listening app _ _ => some app

/-- An incoming request, as far as the service looks at it: the method, the
path of the URL, the headers and the body. -/
structure Req where
  method : String
  path : String
  headers : List (String × String)
  body : String

/-- The response object: its status code and the value handed to `json`. -/
structure Res where
  statusCode : Nat
  body : Option JSVal

/-- The response object as the framework hands it to a handler: status 200
and nothing sent yet. -/
def Res.fresh : Res :=
  { statusCode := 200, body := none }

/-- The method `res.status(code)`. -/
def Res.status (res : Res) (code : Nat) : Res :=
  { res with statusCode := code }

/-- The method `res.json(value)`. -/
def Res.json (res : Res) (value : JSVal) : Res :=
  { res with body := some value }

/-- Member `key` of the JSON body of a response. -/
def Res.jsonField (res : Res) (key : String) : Option JSVal :=
  match res.body with
  | some v => v.jsonField key
  | none => none

/-- Member names of the JSON body of a response. -/
def Res.jsonKeys (res : Res) : List String :=
  match res.body with
  | some v => v.jsonKeys
  | none => []

/-- The fixed list in the `issues` field of the root route. -/
def issues : List JSVal :=
  [.str "Port Mismatch: App runs on 3000, ACA configured for 8080",
   .str "Health Check Port Issues: Health checks point to wrong port",
   .str "Missing Environment Variables: REQUIRED_CONFIG not set",
   .str "Security Issue: Container runs as root"]

/-- Handler of `app.get('/health', ..)`; `now` is the value of
`new Date().toISOString()` when the handler runs. -/
def healthHandler (app : App) (now : String) (_req : Req) (res : Res) : Res :=
  (res.status 200).json (.obj [
    ("status", .str "healthy"),
    ("timestamp", .str now),
    ("config", app.REQUIRED_CONFIG),
    ("port", app.PORT),
    ("message", .str "Health check endpoint - but ACA will call this on wrong port!")])

/-- Handler of `app.get('/', ..)`. -/
def rootHandler (app : App) (now : String) (_req : Req) (res : Res) : Res :=
  res.json (.obj [
    ("message", .str "Failing ACA Demo App"),
    ("description", .str "This app is designed to fail when deployed to Azure Container Apps"),
    ("issues", .arr issues),
    ("config", app.REQUIRED_CONFIG),
    ("port", app.PORT),
    ("timestamp", .str now)])

/-- Handler of `app.get('/api/data', ..)`. -/
def apiDataHandler (app : App) (_req : Req) (res : Res) : Res :=
  res.json (.obj [
    ("data", .str "Sample data from failing app"),
    ("config", app.REQUIRED_CONFIG),
    ("port", app.PORT)])

/-- The route table, in registration order: path and handler of each
`app.get`. -/
def routes (app : App) (now : String) : List (String × (Req → Res → Res)) :=
  [("/health", healthHandler app now),
   ("/", rootHandler app now),
   ("/api/data", apiDataHandler app)]

/-- Whether the path of a request matches a route path.  The router compares
without regard to the case of letters and allows one trailing slash more or
less: a route path ending in `/` matches with or without that slash, any other
route path matches as it is or followed by `/`. -/
def pathMatches (routePath path : String) : Bool :=
  let p := path.data.map Char.toLower
  let r := routePath.data
  if r.getLast? = some '/' then p == r || p == r.dropLast
  else p == r || p == r ++ ['/']

/-- The router stage: a `GET` (or a `HEAD`, which the router hands to the
`GET` handler) whose path matches a route runs the handler of the first such
route on a fresh response object; `none` when no route matches. -/
def router (app : App) (now : String) (req : Req) : Option Res :=
  if req.method = "GET" ∨ req.method = "HEAD" then
    match (routes app now).find? (fun r => pathMatches r.1 req.path) with
    | some r => some (r.2 req Res.fresh)
    | none => none
  else
    none

/-- An error object handed to the error-handling middleware; `message` is
the only property the middleware reads. -/
structure JSError where
  message : String

/-- The error-handling middleware `app.use((err, req, res, next) => ..)`: the
response it produces (it also logs the error with `console.error`). -/
def errorHandler (err : JSError) (_req : Req) (res : Res) : Res :=
  (res.status 500).json (.obj [
    ("error", .str "Internal Server Error"),
    ("message", .str err.message)])

/-- The service on one request, the middleware in the order of their
registration.  `cors()` answers an `OPTIONS` request itself with status 204.
The parameter `json` is `express.json()`: `none` when it passes the request
on, `some err` when it rejects the body and hands `err` to the error-handling
middleware.  Then the router runs; when no route matches, the framework
answers 404 without a JSON body.  The body of the response to a `HEAD` request
is not sent. -/
def serve (json : Req → Option JSError) (app : App) (now : String) (req : Req) : Res :=
  if req.method = "OPTIONS" then
    { statusCode := 204, body := none }
  else
    let res : Res :=
      match json req with
      | some err => errorHandler err req Res.fresh
      | none =>
        match router app now req with
        | some res => res
        | none => { statusCode := 404, body := none }
    if req.method = "HEAD" then { res with body := none } else res

/-- The middleware `express.json()` on the requests used below: a request that
declares `application/json` and carries the body `ignored` is rejected with the
syntax error of `JSON.parse`; every other request used below has no body and is
passed on. -/
def jsonSample (req : Req) : Option JSError :=
  if req.headers.lookup "content-type" = some "application/json" ∧ req.body = "ignored" then
    some { message := "Unexpected token i in JSON at position 0" }
  else
    none

/-! ## `test-local.js` -/

/-- The value the harness assigns to `process.env.REQUIRED_CONFIG`. -/
def testConfigValue : String := "test-config-value"

/-- The destination of one `http.get`: host, port and path of its URL. -/
structure Target where
  host : String
  port : Nat
  path : String

/-- The three responses the harness waits for. -/
inductive Endpoint where
  | root
  | health
  | api

/-- The URL of each `http.get`: `http://localhost:3000`,
`http://localhost:3000/health` and `http://localhost:3000/api/data`. -/
def Endpoint.target : Endpoint → Target
  | .root => { host := "localhost", port := 3000, path := "/" }
  | .health => { host := "localhost", port := 3000, path := "/health" }
  | .api => { host := "localhost", port := 3000, path := "/api/data" }

/-- The requests issued by the timer callback, in the order of the source. -/
def requests : List Target :=
  [Endpoint.root.target, Endpoint.health.target, Endpoint.api.target]

/-- The body of `testLocalApp` up to the requests: set
`process.env.REQUIRED_CONFIG`, load `server.js`, and, when the process is still
alive after that, issue the three requests from the timer callback.  When
loading `server.js` ends the process (by the guard, or by the exception of
`app.listen`, which leaves `testLocalApp` uncaught), the timer is never set
and no request is issued.  The result is the outcome of the service start and
the requests issued. -/
def testLocalApp (env : Env) : Startup × List Target :=
  let env1 : Env := { env with REQUIRED_CONFIG := some testConfigValue }
  match startServer env1 with
  | .listening app port host => (.listening app port host, requests)
  | .listenThrew app port host => (.listenThrew app port host, [])
  | .exited code log => (.exited code log, [])

/-- One `console.log` of the harness: a text, or a value printed as such. -/
inductive Line where
  | text (s : String)
  | value (v : JSVal)

/-- The events of the three responses: a `data` chunk, or `end`. -/
inductive Event where
  | chunk (ep : Endpoint) (s : String)
  | done (ep : Endpoint)

/-- State of the harness once the timer callback has issued the requests: the
three `data` accumulators, what the harness printed, and the exit code once
the process has ended. -/
structure Harness where
  rootData : String
  healthData : String
  apiData : String
  stdout : List Line
  exitCode : Option Nat

/-- State when the three requests have just been issued. -/
def Harness.init : Harness :=
  { rootData := "", healthData := "", apiData := "",
    stdout := [.text "🧪 Testing the failing ACA app locally...\n",
               .text "\n📡 Testing endpoints...\n"],
    exitCode := none }

/-- The accumulator of a response. -/
def Harness.data (st : Harness) : Endpoint → String
  | .root => st.rootData
  | .health => st.healthData
  | .api => st.apiData

/-- The first line printed by the `end` handler of a response. -/
def Endpoint.label : Endpoint → String
  | .root => "✅ Root endpoint (/):"
  | .health => "✅ Health endpoint (/health):"
  | .api => "✅ API endpoint (/api/data):"

/-- The line `'\n' + '='.repeat(50) + '\n'`. -/
def separator : String :=
  "\n" ++ "".pushn '=' 50 ++ "\n"

/-- The fixed summary printed by the `end` handler of `/api/data`. -/
def summary : List Line :=
  [.text "🎯 App works locally but will fail in Azure Container Apps!",
   .text "🚨 Issues that will cause failure:",
   .text "   1. Port mismatch (3000 vs 8080)",
   .text "   2. Missing REQUIRED_CONFIG in ACA",
   .text "   3. Health checks on wrong port",
   .text "   4. Running as root user"]

/-- One event of the harness.  The parameter `parse` is `JSON.parse` (`none`
when it throws, which ends the process with code 1 as an uncaught exception).
Nothing runs once the process has ended.  A chunk is appended to its
accumulator.  An `end` prints the label, the parsed body and the separator;
for `/api/data` it then prints the summary and calls `process.exit(0)`. -/
def Harness.step (parse : String → Option JSVal) (st : Harness) (ev : Event) : Harness :=
  match st.exitCode with
  | some _ => st
  | none =>
    match ev with
    | .chunk .root s => { st with rootData := st.rootData ++ s }
    | .chunk .health s => { st with healthData := st.healthData ++ s }
    | .chunk .api s => { st with apiData := st.apiData ++ s }
    | .done ep =>
      match parse (st.data ep) with
      | none => { st with stdout := st.stdout ++ [.text ep.label], exitCode := some 1 }
      | some v =>
        let out := st.stdout ++ [.text ep.label, .value v, .text separator]
        match ep with
        | .api => { st with stdout := out ++ summary, exitCode := some 0 }
        | _ => { st with stdout := out }

/-- The harness run over a sequence of response events. -/
def runHarness (parse : String → Option JSVal) (events : List Event) : Harness :=
  events.foldl (Harness.step parse) Harness.init

/-- The JSON text the service sends for `/api/data` under the harness. -/
def apiText : String :=
  "\x7b\"data\":\"Sample data from failing app\",\"config\":\"test-config-value\",\"port\":3000\x7d"

/-- The value `JSON.parse` yields for `apiText`. -/
def apiValue : JSVal :=
  .obj [("data", .str "Sample data from failing app"),
        ("config", .str "test-config-value"),
        ("port", .num 3000)]

/-- The function `JSON.parse` on the texts used below: `apiText` parses to
`apiValue`; no other text is given a value. -/
def parseSample (s : String) : Option JSVal :=
  if s = apiText then some apiValue else none


/-! ## Shared lemmas -/

/-- The guard `!REQUIRED_CONFIG` fires exactly on an unset or empty variable. -/
theorem truthy_envRead (o : Option String) :
    (envRead o).truthy = false ↔ (o = none ∨ o = some "") := by
  cases o with
  | none => simp [envRead, JSVal.truthy]
  | some s => simp [envRead, JSVal.truthy]

/-- The constant `PORT` by cases on the variable. -/
theorem PORT_eq (env : Env) :
    PORT env = match env.PORT with
      | none => JSVal.num 3000
      | some s => if s = "" then JSVal.num 3000 else JSVal.str s := by
  cases h : env.PORT with
  | none => simp [PORT, h, envRead, JSVal.or, JSVal.truthy]
  | some s =>
    by_cases hs : s = ""
    · simp [PORT, h, envRead, JSVal.or, JSVal.truthy, hs]
    · simp [PORT, h, envRead, JSVal.or, JSVal.truthy, hs]

/-- The constant `PORT` is never `undefined`. -/
theorem PORT_defined (env : Env) : (PORT env).isUndefined = false := by
  rw [PORT_eq]
  cases env.PORT with
  | none => rfl
  | some s =>
    by_cases hs : s = ""
    · simp [hs, JSVal.isUndefined]
    · simp [hs, JSVal.isUndefined]

/-- The constant `PORT` is the number 3000 or a string. -/
theorem PORT_shape (env : Env) : PORT env = .num 3000 ∨ ∃ s, PORT env = .str s := by
  rw [PORT_eq]
  cases env.PORT with
  | none => exact Or.inl rfl
  | some s =>
    by_cases hs : s = ""
    · simp [hs]
    · simp [hs]

/-- With `PORT` unset or empty the constant is the default 3000. -/
theorem PORT_default (env : Env) (hp : env.PORT = none ∨ env.PORT = some "") :
    PORT env = .num 3000 := by
  rw [PORT_eq]
  rcases hp with hp | hp
  · rw [hp]
  · rw [hp]
    rfl

/-- The default port is accepted by `listen` as TCP port 3000. -/
theorem listenTarget_default : listenTarget (.num 3000) = .tcp 3000 := by
  decide

/-- With `REQUIRED_CONFIG` unset or empty the module body exits with code 1. -/
theorem startServer_of_missing (env : Env)
    (hc : env.REQUIRED_CONFIG = none ∨ env.REQUIRED_CONFIG = some "") :
    startServer env = .exited 1 fatalLog := by
  have h := (truthy_envRead env.REQUIRED_CONFIG).2 hc
  simp [startServer, REQUIRED_CONFIG, h]

/-- With a non-empty `REQUIRED_CONFIG` and a port that `listen` accepts, the
call of `app.listen` returns. -/
theorem startServer_listening (env : Env) (v : String) (hv : v ≠ "")
    (hc : env.REQUIRED_CONFIG = some v) (hl : listenTarget (PORT env) ≠ .bad) :
    startServer env =
      .listening { PORT := PORT env, REQUIRED_CONFIG := .str v } (PORT env) "0.0.0.0" := by
  simp only [startServer, REQUIRED_CONFIG, hc, envRead, JSVal.truthy]
  have hv2 : (v != "") = true := by simp [hv]
  simp only [hv2, Bool.not_true]
  cases ht : listenTarget (PORT env) with
  | bad => exact absurd ht hl
  | tcp n => simp
  | anyPort => simp
  | pipe name => simp

/-- With a non-empty `REQUIRED_CONFIG` and a port that `listen` rejects, the
call of `app.listen` throws. -/
theorem startServer_threw (env : Env) (v : String) (hv : v ≠ "")
    (hc : env.REQUIRED_CONFIG = some v) (hl : listenTarget (PORT env) = .bad) :
    startServer env =
      .listenThrew { PORT := PORT env, REQUIRED_CONFIG := .str v } (PORT env) "0.0.0.0" := by
  simp only [startServer, REQUIRED_CONFIG, hc, envRead, JSVal.truthy]
  have hv2 : (v != "") = true := by simp [hv]
  simp only [hv2, Bool.not_true]
  simp [hl]

/-- A service that listens was started with a non-empty `REQUIRED_CONFIG`
and a port that `listen` accepts. -/
theorem listening_inv (env : Env) (app : App) (port : JSVal) (host : String)
    (h : startServer env = .listening app port host) :
    ∃ v, v ≠ "" ∧ env.REQUIRED_CONFIG = some v ∧
      app = { PORT := PORT env, REQUIRED_CONFIG := .str v } ∧
      port = PORT env ∧ host = "0.0.0.0" ∧ listenTarget (PORT env) ≠ .bad := by
  cases hc : env.REQUIRED_CONFIG with
  | none =>
    rw [startServer_of_missing env (Or.inl hc)] at h
    cases h
  | some v =>
    by_cases hv : v = ""
    · rw [startServer_of_missing env (Or.inr (by rw [hc, hv]))] at h
      cases h
    · by_cases hl : listenTarget (PORT env) = .bad
      · rw [startServer_threw env v hv hc hl] at h
        cases h
      · rw [startServer_listening env v hv hc hl] at h
        cases h
        exact ⟨v, hv, rfl, rfl, rfl, rfl, hl⟩

/-- The route of `/health` is the first that matches the path `/health`. -/
theorem find_route_health (app : App) (now : String) :
    (routes app now).find? (fun r => pathMatches r.1 "/health") =
      some ("/health", healthHandler app now) := by
  have h1 : pathMatches "/health" "/health" = true := by decide
  simp [routes, List.find?, h1]

/-- The route of `/` is the first that matches the path `/`. -/
theorem find_route_root (app : App) (now : String) :
    (routes app now).find? (fun r => pathMatches r.1 "/") =
      some ("/", rootHandler app now) := by
  have h1 : pathMatches "/health" "/" = false := by decide
  have h2 : pathMatches "/" "/" = true := by decide
  simp [routes, List.find?, h1, h2]

/-- The route of `/api/data` is the first that matches the path `/api/data`. -/
theorem find_route_api (app : App) (now : String) :
    (routes app now).find? (fun r => pathMatches r.1 "/api/data") =
      some ("/api/data", apiDataHandler app) := by
  have h1 : pathMatches "/health" "/api/data" = false := by decide
  have h2 : pathMatches "/" "/api/data" = false := by decide
  have h3 : pathMatches "/api/data" "/api/data" = true := by decide
  simp [routes, List.find?, h1, h2, h3]

/-- A `GET` that `express.json()` passes on is answered by the router. -/
theorem serve_get (json : Req → Option JSError) (app : App) (now : String) (req : Req)
    (hm : req.method = "GET") (hj : json req = none) (res : Res)
    (hr : router app now req = some res) :
    serve json app now req = res := by
  simp [serve, hm, hj, hr]

/-! ## Startup -/

/-- C1, the claim fails when `app.listen` rejects `PORT`: with `PORT=65536`
and `REQUIRED_CONFIG` set to a non-empty value, the guard is passed, the call
`app.listen("65536", '0.0.0.0', ..)` throws and the process ends with exit
code 1. -/
theorem startup_exit_bad_port_counterexample :
    startServer ⟨some "65536", some "cfg"⟩ =
        .listenThrew ⟨.str "65536", .str "cfg"⟩ (.str "65536") "0.0.0.0" ∧
      (startServer ⟨some "65536", some "cfg"⟩).exitCode = some 1 :=
  ⟨rfl, rfl⟩

/-- C1 as amended: starting the service ends the process, and then with exit
code 1, if and only if `REQUIRED_CONFIG` is unset or the empty string or
`app.listen` rejects `PORT`.  When `REQUIRED_CONFIG` is unset or empty,
`app.listen` is not reached.  For every non-empty value the guard is passed
and `app.listen(PORT, '0.0.0.0', ..)` is called; unless it rejects `PORT`
(it accepts the default port 3000 of an unset or empty `PORT`), the call
returns and the startup code runs to its end without exiting. -/
theorem startup_exit_amended (env : Env) :
    ((startServer env).exitCode = some 1 ↔
        ((env.REQUIRED_CONFIG = none ∨ env.REQUIRED_CONFIG = some "") ∨
          listenTarget (PORT env) = .bad)) ∧
    ((startServer env).exitCode = none ∨ (startServer env).exitCode = some 1) ∧
    ((env.REQUIRED_CONFIG = none ∨ env.REQUIRED_CONFIG = some "") →
        (∃ log, startServer env = .exited 1 log) ∧ (startServer env).listenCall = none) ∧
    (∀ v, env.REQUIRED_CONFIG = some v → v ≠ "" →
        (∀ code log, startServer env ≠ .exited code log) ∧
        (startServer env).listenCall = some (PORT env, "0.0.0.0") ∧
        (listenTarget (PORT env) ≠ .bad →
          (startServer env).exitCode = none ∧
          ∃ app, startServer env = .listening app (PORT env) "0.0.0.0")) ∧
    (env.PORT = none ∨ env.PORT = some "" → listenTarget (PORT env) = .tcp 3000) := by
  have hdef : env.PORT = none ∨ env.PORT = some "" → listenTarget (PORT env) = .tcp 3000 := by
    intro hp
    rw [PORT_default env hp]
    exact listenTarget_default
  by_cases hmiss : env.REQUIRED_CONFIG = none ∨ env.REQUIRED_CONFIG = some ""
  · have hs := startServer_of_missing env hmiss
    refine ⟨?_, ?_, ?_, ?_, hdef⟩
    · rw [hs]
      simp [Startup.exitCode, hmiss]
    · rw [hs]
      exact Or.inr rfl
    · intro _
      rw [hs]
      exact ⟨⟨fatalLog, rfl⟩, rfl⟩
    · intro v hc hv
      rcases hmiss with h | h
      · rw [hc] at h
        cases h
      · rw [hc] at h
        cases h
        exact absurd rfl hv
  · obtain ⟨v, hc, hv⟩ : ∃ v, env.REQUIRED_CONFIG = some v ∧ v ≠ "" := by
      cases hc : env.REQUIRED_CONFIG with
      | none => exact absurd (Or.inl hc) hmiss
      | some v =>
        refine ⟨v, rfl, ?_⟩
        intro hv
        exact hmiss (Or.inr (by rw [hc, hv]))
    by_cases hl : listenTarget (PORT env) = .bad
    · have hs := startServer_threw env v hv hc hl
      refine ⟨?_, ?_, ?_, ?_, hdef⟩
      · rw [hs]
        simp [Startup.exitCode, hl]
      · rw [hs]
        exact Or.inr rfl
      · intro h
        exact absurd h hmiss
      · intro w _ _
        rw [hs]
        refine ⟨?_, rfl, ?_⟩
        · intro code log h
          cases h
        · intro h
          exact absurd hl h
    · have hs := startServer_listening env v hv hc hl
      refine ⟨?_, ?_, ?_, ?_, hdef⟩
      · rw [hs]
        simp [Startup.exitCode, hmiss, hl]
      · rw [hs]
        exact Or.inl rfl
      · intro h
        exact absurd h hmiss
      · intro w _ _
        rw [hs]
        refine ⟨?_, rfl, ?_⟩
        · intro code log h
          cases h
        · intro _
          exact ⟨rfl, _, rfl⟩

/-- Instance of the amended C1: with `REQUIRED_CONFIG` unset the start exits
with code 1 before `app.listen`; with `REQUIRED_CONFIG=v` and `PORT=8080` it
does not exit and `app.listen` returns. -/
theorem startup_exit_amended_witness :
    ((∃ log, startServer ⟨none, none⟩ = .exited 1 log) ∧
        (startServer ⟨none, none⟩).listenCall = none) ∧
    ((startServer ⟨some "8080", some "v"⟩).exitCode = none ∧
        ∃ app, startServer ⟨some "8080", some "v"⟩ =
          .listening app (PORT ⟨some "8080", some "v"⟩) "0.0.0.0") :=
  ⟨(startup_exit_amended ⟨none, none⟩).2.2.1 (Or.inl rfl),
   ((startup_exit_amended ⟨some "8080", some "v"⟩).2.2.2.1 "v" rfl (by decide)).2.2
     (by decide)⟩

/-! ## Routes -/

/-- C2: for every non-empty value `v` of `REQUIRED_CONFIG` and every value of
`PORT`, the guard is passed (and `app.listen` returns unless it rejects
`PORT`), and the JSON body returned by each of the routes `GET /`,
`GET /health` and `GET /api/data` has the member `config` equal to `v`. -/
theorem config_echoed_by_all_routes (env : Env) (v : String) (hv : v ≠ "")
    (hc : env.REQUIRED_CONFIG = some v) (now : String) (req : Req)
    (hm : req.method = "GET")
    (hp : req.path = "/" ∨ req.path = "/health" ∨ req.path = "/api/data") :
    ∃ app res, (startServer env).constants = some app ∧
      (listenTarget (PORT env) ≠ .bad →
        startServer env = .listening app (PORT env) "0.0.0.0") ∧
      router app now req = some res ∧
      res.jsonField "config" = some (.str v) := by
  have hd := PORT_defined env
  have hconst : (startServer env).constants = some ⟨PORT env, .str v⟩ := by
    by_cases hl : listenTarget (PORT env) = .bad
    · rw [startServer_threw env v hv hc hl]
      rfl
    · rw [startServer_listening env v hv hc hl]
      rfl
  rcases hp with hp | hp | hp
  · refine ⟨⟨PORT env, .str v⟩, rootHandler ⟨PORT env, .str v⟩ now req Res.fresh, hconst,
      startServer_listening env v hv hc, ?_, ?_⟩
    · simp [router, hm, hp, find_route_root]
    · simp [rootHandler, Res.json, Res.fresh, Res.jsonField, JSVal.jsonField,
        JSVal.jsonFields, JSVal.isUndefined, List.lookup, hd]
  · refine ⟨⟨PORT env, .str v⟩, healthHandler ⟨PORT env, .str v⟩ now req Res.fresh, hconst,
      startServer_listening env v hv hc, ?_, ?_⟩
    · simp [router, hm, hp, find_route_health]
    · simp [healthHandler, Res.json, Res.status, Res.fresh, Res.jsonField, JSVal.jsonField,
        JSVal.jsonFields, JSVal.isUndefined, List.lookup, hd]
  · refine ⟨⟨PORT env, .str v⟩, apiDataHandler ⟨PORT env, .str v⟩ req Res.fresh, hconst,
      startServer_listening env v hv hc, ?_, ?_⟩
    · simp [router, hm, hp, find_route_api]
    · simp [apiDataHandler, Res.json, Res.fresh, Res.jsonField, JSVal.jsonField,
        JSVal.jsonFields, JSVal.isUndefined, List.lookup, hd]

/-- Instance of C2: `REQUIRED_CONFIG=abc`, `PORT=8080`, `GET /health`. -/
theorem config_echoed_by_all_routes_witness :
    ∃ app res, (startServer ⟨some "8080", some "abc"⟩).constants = some app ∧
      (listenTarget (PORT ⟨some "8080", some "abc"⟩) ≠ .bad →
        startServer ⟨some "8080", some "abc"⟩ =
          .listening app (PORT ⟨some "8080", some "abc"⟩) "0.0.0.0") ∧
      router app "t" ⟨"GET", "/health", [], ""⟩ = some res ∧
      res.jsonField "config" = some (.str "abc") :=
  config_echoed_by_all_routes ⟨some "8080", some "abc"⟩ "abc" (by decide) rfl "t"
    ⟨"GET", "/health", [], ""⟩ rfl (Or.inr (Or.inl rfl))

/-- C3, the claim fails at the empty string: with `PORT` set to `""` the
service passes the number 3000 to `app.listen`, not the value of `PORT`. -/
theorem listen_port_empty_counterexample :
    startServer ⟨some "", some "cfg"⟩ =
        .listening ⟨.num 3000, .str "cfg"⟩ (.num 3000) "0.0.0.0" ∧
      JSVal.num 3000 ≠ JSVal.str "" := by
  constructor
  · rfl
  · intro h
    cases h

/-- C3 as amended: when the guard is passed (non-empty `REQUIRED_CONFIG`), the
port passed to `app.listen` is exactly the value of `PORT` for every non-empty
value (including `"0"`), and is the default 3000 when `PORT` is unset or the
empty string. -/
theorem listen_port_amended (env : Env) (v : String) (hv : v ≠ "")
    (hc : env.REQUIRED_CONFIG = some v) :
    (∀ s, env.PORT = some s → s ≠ "" →
        (startServer env).listenCall = some (.str s, "0.0.0.0")) ∧
    (env.PORT = none ∨ env.PORT = some "" →
        ∃ app, startServer env = .listening app (.num 3000) "0.0.0.0") := by
  have hP := PORT_eq env
  have hcall : (startServer env).listenCall = some (PORT env, "0.0.0.0") := by
    by_cases hl : listenTarget (PORT env) = .bad
    · rw [startServer_threw env v hv hc hl]
      rfl
    · rw [startServer_listening env v hv hc hl]
      rfl
  constructor
  · intro s hs hne
    rw [hcall]
    simp [hP, hs, hne]
  · intro hp
    have hd := PORT_default env hp
    have hl : listenTarget (PORT env) ≠ .bad := by
      rw [hd, listenTarget_default]
      intro h
      cases h
    refine ⟨⟨PORT env, .str v⟩, ?_⟩
    rw [startServer_listening env v hv hc hl, hd]

/-- Instance of the amended C3 at `PORT=0`: the listener is given `"0"`. -/
theorem listen_port_amended_witness :
    (startServer ⟨some "0", some "cfg"⟩).listenCall = some (.str "0", "0.0.0.0") :=
  (listen_port_amended ⟨some "0", some "cfg"⟩ "cfg" (by decide) rfl).1 "0" rfl (by decide)

/-- C4: for every non-empty `REQUIRED_CONFIG` value `v` with `PORT` unset,
`GET /api/data` returns status 200 and a JSON object with exactly the three
members `data = "Sample data from failing app"`, `config = v` and
`port = 3000` (a number). -/
theorem api_data_default_port (env : Env) (v : String) (hv : v ≠ "")
    (hc : env.REQUIRED_CONFIG = some v) (hp : env.PORT = none)
    (now : String) (req : Req) (hm : req.method = "GET") (hpath : req.path = "/api/data") :
    ∃ app port host body, startServer env = .listening app port host ∧
      router app now req = some { statusCode := 200, body := some body } ∧
      body.jsonFields = [("data", .str "Sample data from failing app"),
                         ("config", .str v),
                         ("port", .num 3000)] := by
  have hP : PORT env = .num 3000 := PORT_default env (Or.inl hp)
  have hl : listenTarget (PORT env) ≠ .bad := by
    rw [hP, listenTarget_default]
    intro h
    cases h
  refine ⟨_, _, _, .obj [("data", .str "Sample data from failing app"), ("config", .str v),
      ("port", .num 3000)], startServer_listening env v hv hc hl, ?_, ?_⟩
  · simp [router, hm, hpath, find_route_api, apiDataHandler, Res.json, Res.fresh, hP]
  · simp [JSVal.jsonFields, JSVal.isUndefined]

/-- Instance of C4: `REQUIRED_CONFIG=test-config-value` and `PORT` unset give
the members `data`, `config = "test-config-value"` and `port = 3000`. -/
theorem api_data_default_port_witness :
    ∃ app port host body, startServer ⟨none, some "test-config-value"⟩ = .listening app port host ∧
      router app "t" ⟨"GET", "/api/data", [], ""⟩ =
        some { statusCode := 200, body := some body } ∧
      body.jsonFields = [("data", .str "Sample data from failing app"),
                         ("config", .str "test-config-value"),
                         ("port", .num 3000)] :=
  api_data_default_port ⟨none, some "test-config-value"⟩ "test-config-value" (by decide) rfl rfl
    "t" ⟨"GET", "/api/data", [], ""⟩ rfl rfl

/-- C5, the claim fails for a request whose body `express.json()` rejects: the
service runs with `PORT` unset and `REQUIRED_CONFIG=cfg`, and a `GET /health`
that declares `application/json` and carries the body `ignored` never reaches
the route; the error-handling middleware answers it with status 500 and the
members `error` and `message`. -/
theorem health_malformed_body_counterexample :
    startServer ⟨none, some "cfg"⟩ =
        .listening ⟨.num 3000, .str "cfg"⟩ (.num 3000) "0.0.0.0" ∧
      serve jsonSample ⟨.num 3000, .str "cfg"⟩ "t"
          ⟨"GET", "/health",
           [("content-type", "application/json"), ("content-length", "7")], "ignored"⟩ =
        { statusCode := 500,
          body := some (.obj [("error", .str "Internal Server Error"),
                              ("message", .str "Unexpected token i in JSON at position 0")]) } :=
  ⟨rfl, rfl⟩

/-- C5 as amended: for every configuration with which the service starts and
every `GET /health` request that `express.json()` passes on (at any time
`now`), the response has status 200 and a JSON object whose members are
exactly `status`, `timestamp`, `config`, `port` and `message`, with `status`
equal to `"healthy"`. -/
theorem health_response_amended (json : Req → Option JSError)
    (env : Env) (app : App) (port : JSVal) (host : String)
    (h : startServer env = .listening app port host)
    (now : String) (req : Req) (hm : req.method = "GET") (hpath : req.path = "/health")
    (hj : json req = none) :
    (serve json app now req).statusCode = 200 ∧
    (serve json app now req).jsonKeys = ["status", "timestamp", "config", "port", "message"] ∧
    (serve json app now req).jsonField "status" = some (.str "healthy") := by
  obtain ⟨v, _, _, happ, _, _, _⟩ := listening_inv env app port host h
  subst happ
  have hr : router ⟨PORT env, .str v⟩ now req =
      some (healthHandler ⟨PORT env, .str v⟩ now req Res.fresh) := by
    simp [router, hm, hpath, find_route_health]
  rw [serve_get json _ now req hm hj _ hr]
  refine ⟨rfl, ?_, ?_⟩
  · rcases PORT_shape env with hP | ⟨s, hP⟩ <;>
      simp [healthHandler, Res.json, Res.status, Res.fresh, Res.jsonKeys, JSVal.jsonKeys,
        JSVal.jsonFields, JSVal.isUndefined, hP]
  · simp [healthHandler, Res.json, Res.status, Res.fresh, Res.jsonField, JSVal.jsonField,
      JSVal.jsonFields, JSVal.isUndefined, List.lookup]

/-- Instance of the amended C5 at `PORT=8080`, `REQUIRED_CONFIG=abc` and a
`GET /health` without a body. -/
theorem health_response_amended_witness :
    (serve jsonSample ⟨.str "8080", .str "abc"⟩ "t" ⟨"GET", "/health", [], ""⟩).statusCode = 200 ∧
    (serve jsonSample ⟨.str "8080", .str "abc"⟩ "t" ⟨"GET", "/health", [], ""⟩).jsonKeys =
      ["status", "timestamp", "config", "port", "message"] ∧
    (serve jsonSample ⟨.str "8080", .str "abc"⟩ "t" ⟨"GET", "/health", [], ""⟩).jsonField
      "status" = some (.str "healthy") :=
  health_response_amended jsonSample ⟨some "8080", some "abc"⟩ ⟨.str "8080", .str "abc"⟩
    (.str "8080") "0.0.0.0" rfl "t" ⟨"GET", "/health", [], ""⟩ rfl rfl rfl

/-- C6: for every configuration with which the service starts, `GET /`
returns status 200 and a JSON object whose members are exactly `message`,
`description`, `issues`, `config`, `port` and `timestamp`, where `issues` is
the same list of four strings, in the same order, on every request. -/
theorem root_response (env : Env) (app : App) (port : JSVal) (host : String)
    (h : startServer env = .listening app port host)
    (now : String) (req : Req) (hm : req.method = "GET") (hpath : req.path = "/") :
    ∃ res, router app now req = some res ∧
      res.statusCode = 200 ∧
      res.jsonKeys = ["message", "description", "issues", "config", "port", "timestamp"] ∧
      res.jsonField "issues" = some (.arr [
        .str "Port Mismatch: App runs on 3000, ACA configured for 8080",
        .str "Health Check Port Issues: Health checks point to wrong port",
        .str "Missing Environment Variables: REQUIRED_CONFIG not set",
        .str "Security Issue: Container runs as root"]) := by
  obtain ⟨v, _, _, happ, _, _, _⟩ := listening_inv env app port host h
  subst happ
  refine ⟨rootHandler ⟨PORT env, .str v⟩ now req Res.fresh, ?_, ?_, ?_, ?_⟩
  · simp [router, hm, hpath, find_route_root]
  · rfl
  · rcases PORT_shape env with hP | ⟨s, hP⟩ <;>
      simp [rootHandler, Res.json, Res.fresh, Res.jsonKeys, JSVal.jsonKeys,
        JSVal.jsonFields, JSVal.isUndefined, hP]
  · simp [rootHandler, Res.json, Res.fresh, Res.jsonField, JSVal.jsonField,
      JSVal.jsonFields, JSVal.isUndefined, List.lookup, issues]

/-- Instance of C6 at `PORT` unset, `REQUIRED_CONFIG=abc`. -/
theorem root_response_witness :
    ∃ res, router ⟨.num 3000, .str "abc"⟩ "t" ⟨"GET", "/", [], ""⟩ = some res ∧
      res.statusCode = 200 ∧
      res.jsonKeys = ["message", "description", "issues", "config", "port", "timestamp"] ∧
      res.jsonField "issues" = some (.arr [
        .str "Port Mismatch: App runs on 3000, ACA configured for 8080",
        .str "Health Check Port Issues: Health checks point to wrong port",
        .str "Missing Environment Variables: REQUIRED_CONFIG not set",
        .str "Security Issue: Container runs as root"]) :=
  root_response ⟨none, some "abc"⟩ ⟨.num 3000, .str "abc"⟩ (.num 3000) "0.0.0.0"
    rfl "t" ⟨"GET", "/", [], ""⟩ rfl rfl

/-- C7: for every error handed to the error-handling middleware (and every
request and response object), the response has status 500 and a JSON body
with exactly the members `error = "Internal Server Error"` and `message`, the
latter being the message of the error, unchanged. -/
theorem error_handler_response (err : JSError) (req : Req) (res : Res) :
    (errorHandler err req res).statusCode = 500 ∧
    (errorHandler err req res).jsonKeys = ["error", "message"] ∧
    (errorHandler err req res).jsonField "error" = some (.str "Internal Server Error") ∧
    (errorHandler err req res).jsonField "message" = some (.str err.message) := by
  refine ⟨rfl, ?_, ?_, ?_⟩
  · simp [errorHandler, Res.json, Res.status, Res.jsonKeys, JSVal.jsonKeys,
      JSVal.jsonFields, JSVal.isUndefined]
  · simp [errorHandler, Res.json, Res.status, Res.jsonField, JSVal.jsonField,
      JSVal.jsonFields, JSVal.isUndefined, List.lookup]
  · simp [errorHandler, Res.json, Res.status, Res.jsonField, JSVal.jsonField,
      JSVal.jsonFields, JSVal.isUndefined, List.lookup]

/-- C8, the claim fails when `PORT` is set: with `PORT=8080` the service
starts, the `port` of its configuration state is the string `"8080"`, which is
not an integer, and `GET /api/data` reports that string. -/
theorem port_not_integer_counterexample :
    startServer ⟨some "8080", some "cfg"⟩ =
        .listening ⟨.str "8080", .str "cfg"⟩ (.str "8080") "0.0.0.0" ∧
      (JSVal.str "8080").isInteger = false ∧
      (apiDataHandler ⟨.str "8080", .str "cfg"⟩ ⟨"GET", "/api/data", [], ""⟩ Res.fresh).jsonField
          "port" = some (.str "8080") :=
  ⟨rfl, rfl, rfl⟩

/-- C8 as amended: when the service starts, the `port` of the configuration
state is the integer 3000 if `PORT` is unset or empty, and otherwise is the
string value of `PORT` itself (not converted to a number); that value is what
the `port` member of the response of each of the three routes reports. -/
theorem port_state_amended (env : Env) (app : App) (port : JSVal) (host : String)
    (h : startServer env = .listening app port host) (now : String) (req : Req) :
    (env.PORT = none ∨ env.PORT = some "" → app.PORT = .num 3000 ∧ app.PORT.isInteger = true) ∧
    (∀ s, env.PORT = some s → s ≠ "" → app.PORT = .str s ∧ app.PORT.isInteger = false) ∧
    (healthHandler app now req Res.fresh).jsonField "port" = some app.PORT ∧
    (rootHandler app now req Res.fresh).jsonField "port" = some app.PORT ∧
    (apiDataHandler app req Res.fresh).jsonField "port" = some app.PORT := by
  obtain ⟨v, _, _, happ, _, _, _⟩ := listening_inv env app port host h
  have hP := PORT_eq env
  subst happ
  refine ⟨?_, ?_, ?_, ?_, ?_⟩
  · rintro (hs | hs)
    · simp [hP, hs, JSVal.isInteger]
    · simp [hP, hs, JSVal.isInteger]
  · intro s hs hne
    simp [hP, hs, hne, JSVal.isInteger]
  · rcases PORT_shape env with hQ | ⟨s, hQ⟩ <;>
      simp [healthHandler, Res.json, Res.status, Res.fresh, Res.jsonField, JSVal.jsonField,
        JSVal.jsonFields, JSVal.isUndefined, List.lookup, hQ]
  · rcases PORT_shape env with hQ | ⟨s, hQ⟩ <;>
      simp [rootHandler, Res.json, Res.fresh, Res.jsonField, JSVal.jsonField,
        JSVal.jsonFields, JSVal.isUndefined, List.lookup, hQ]
  · rcases PORT_shape env with hQ | ⟨s, hQ⟩ <;>
      simp [apiDataHandler, Res.json, Res.fresh, Res.jsonField, JSVal.jsonField,
        JSVal.jsonFields, JSVal.isUndefined, List.lookup, hQ]

/-- Instance of the amended C8 at `PORT` unset: the port is the integer 3000
and `/api/data` reports it. -/
theorem port_state_amended_witness :
    (JSVal.num 3000).isInteger = true ∧
    (apiDataHandler ⟨.num 3000, .str "cfg"⟩ ⟨"GET", "/api/data", [], ""⟩ Res.fresh).jsonField
        "port" = some (.num 3000) :=
  have h := port_state_amended ⟨none, some "cfg"⟩ ⟨.num 3000, .str "cfg"⟩ (.num 3000) "0.0.0.0"
    rfl "t" ⟨"GET", "/api/data", [], ""⟩
  ⟨(h.1 (Or.inl rfl)).2, h.2.2.2.2⟩

/-! ## Test harness -/

/-- C9, evaluation at the order in which `/api/data` completes first: its
`end` handler prints the summary and calls `process.exit(0)`, so the process
ends with code 0 while the responses of `/` and `/health` are still unread;
their `data` and `end` events never run and nothing of them is printed. -/
theorem harness_exits_before_other_responses :
    runHarness parseSample
        [.chunk .api apiText, .done .api,
         .chunk .root "r", .done .root,
         .chunk .health "h", .done .health] =
      { rootData := "", healthData := "", apiData := apiText,
        stdout := [.text "🧪 Testing the failing ACA app locally...\n",
                   .text "\n📡 Testing endpoints...\n",
                   .text "✅ API endpoint (/api/data):",
                   .value apiValue,
                   .text separator,
                   .text "🎯 App works locally but will fail in Azure Container Apps!",
                   .text "🚨 Issues that will cause failure:",
                   .text "   1. Port mismatch (3000 vs 8080)",
                   .text "   2. Missing REQUIRED_CONFIG in ACA",
                   .text "   3. Health checks on wrong port",
                   .text "   4. Running as root user"],
        exitCode := some 0 } := by
  rfl

/-- C10, the claim fails when `PORT` names another port: with `PORT=8080` the
service loaded by the harness listens on TCP port 8080 while each of the three
requests is addressed to port 3000. -/
theorem harness_port_counterexample :
    testLocalApp ⟨some "8080", none⟩ =
        (.listening ⟨.str "8080", .str "test-config-value"⟩ (.str "8080") "0.0.0.0",
         requests) ∧
      listenTarget (.str "8080") = .tcp 8080 ∧
      requests.map Target.port = [3000, 3000, 3000] :=
  ⟨rfl, by decide, rfl⟩

/-- C10 as amended: for every initial environment the service loaded by the
harness does not take the fatal-exit path and calls
`app.listen(PORT, '0.0.0.0', ..)`.  When that call rejects `PORT` the harness
ends without issuing a request; otherwise it returns and the three requests
are issued.  They are addressed to the port on which the service listens
whenever that port is 3000, which it is when `PORT` is unset or empty (and for
every other spelling of 3000 that `listen` accepts); when the service listens
on a TCP port other than 3000, none of the requests is addressed to it. -/
theorem harness_start_amended (env : Env) :
    (∀ code log, (testLocalApp env).1 ≠ .exited code log) ∧
    (testLocalApp env).1.listenCall = some (PORT env, "0.0.0.0") ∧
    (listenTarget (PORT env) = .bad → (testLocalApp env).2 = []) ∧
    (listenTarget (PORT env) ≠ .bad →
      (testLocalApp env).2 = requests ∧
      ∃ app, (testLocalApp env).1 = .listening app (PORT env) "0.0.0.0") ∧
    (listenTarget (PORT env) = .tcp 3000 →
      (testLocalApp env).2 = requests ∧
      ∀ t ∈ (testLocalApp env).2, listenTarget (PORT env) = .tcp t.port) ∧
    (∀ n, listenTarget (PORT env) = .tcp n → n ≠ 3000 →
      ∀ t ∈ (testLocalApp env).2, listenTarget (PORT env) ≠ .tcp t.port) ∧
    (env.PORT = none ∨ env.PORT = some "" → listenTarget (PORT env) = .tcp 3000) := by
  have hports : ∀ t ∈ requests, t.port = 3000 := by
    intro t ht
    simp [requests, Endpoint.target] at ht
    rcases ht with rfl | rfl | rfl <;> rfl
  have hsub : ∀ t ∈ (testLocalApp env).2, t.port = 3000 := by
    intro t ht
    by_cases hl : listenTarget (PORT env) = .bad
    · have hs := startServer_threw { env with REQUIRED_CONFIG := some testConfigValue }
        testConfigValue (by decide) rfl hl
      simp [testLocalApp, hs] at ht
    · have hs := startServer_listening { env with REQUIRED_CONFIG := some testConfigValue }
        testConfigValue (by decide) rfl hl
      simp [testLocalApp, hs] at ht
      exact hports t ht
  have hdef : env.PORT = none ∨ env.PORT = some "" → listenTarget (PORT env) = .tcp 3000 := by
    intro hp
    rw [PORT_default env hp]
    exact listenTarget_default
  have hok : listenTarget (PORT env) ≠ .bad →
      testLocalApp env =
        (.listening ⟨PORT env, .str testConfigValue⟩ (PORT env) "0.0.0.0", requests) := by
    intro hl
    have hs := startServer_listening { env with REQUIRED_CONFIG := some testConfigValue }
      testConfigValue (by decide) rfl hl
    simp [testLocalApp, hs]
    rfl
  have hbad : listenTarget (PORT env) = .bad →
      testLocalApp env =
        (.listenThrew ⟨PORT env, .str testConfigValue⟩ (PORT env) "0.0.0.0", []) := by
    intro hl
    have hs := startServer_threw { env with REQUIRED_CONFIG := some testConfigValue }
      testConfigValue (by decide) rfl hl
    simp [testLocalApp, hs]
    rfl
  refine ⟨?_, ?_, ?_, ?_, ?_, ?_, hdef⟩
  · intro code log hex
    by_cases hl : listenTarget (PORT env) = .bad
    · rw [hbad hl] at hex
      cases hex
    · rw [hok hl] at hex
      cases hex
  · by_cases hl : listenTarget (PORT env) = .bad
    · rw [hbad hl]
      rfl
    · rw [hok hl]
      rfl
  · intro hl
    rw [hbad hl]
  · intro hl
    rw [hok hl]
    exact ⟨rfl, _, rfl⟩
  · intro h3
    have hl : listenTarget (PORT env) ≠ .bad := by
      rw [h3]
      intro h
      cases h
    refine ⟨by rw [hok hl], ?_⟩
    intro t ht
    rw [h3, hsub t ht]
  · intro n hn hne t ht heq
    rw [hn, hsub t ht] at heq
    cases heq
    exact hne rfl

/-- Instance of the amended C10 at `PORT=03000`, a spelling of 3000: the
service started by the harness listens on port 3000 and the three requests go
to it. -/
theorem harness_start_amended_witness :
    (testLocalApp ⟨some "03000", none⟩).2 = requests ∧
      ∀ t ∈ (testLocalApp ⟨some "03000", none⟩).2,
        listenTarget (PORT ⟨some "03000", none⟩) = .tcp t.port :=
  (harness_start_amended ⟨some "03000", none⟩).2.2.2.2.1 (by decide)

end ACADemo
